import Mathlib

/-!
Verification of the anigifs repository (cube-to-sphere morph animation player)
against its natural-language specification.

The development shallowly embeds the Python source:
  * the transport state machine of MorphOpenGLWidget (src/modules/audio.py),
  * the RotationController and SmoothValue classes (both the copy in
    src/modules/audio.py and the copy in src/rotate.py),
  * the EnhancedAudioPlayer state transitions (src/modules/audio.py),
  * the tessellated-cube geometry builder and the morph interpolator.

Machine floats are modelled as exact rationals; the audio device, OpenGL
calls and Qt signal plumbing are external side effects and are not part of
the embedded state.
-/

namespace Morph

/-- Transport state owned by MorphOpenGLWidget (src/modules/audio.py,
constructor lines 183-187): elapsed, duration, paused, rewind_mode, speed. -/
structure Transport where
  elapsed : ℚ
  duration : ℚ
  paused : Bool
  rewind_mode : Bool
  speed : ℚ
  deriving DecidableEq, Repr

/-- Initial transport state from MorphOpenGLWidget.__init__:
elapsed = 0.0, duration = 30.0, paused = True, rewind_mode = False,
speed = 1.0. -/
def initTransport : Transport :=
  { elapsed := 0, duration := 30, paused := true, rewind_mode := false, speed := 1 }

/-- MorphOpenGLWidget.toggle_play_pause (src/modules/audio.py lines 559-562):
clears rewind_mode and flips paused. -/
def toggle_play_pause (s : Transport) : Transport :=
  { s with rewind_mode := false, paused := !s.paused }

/-- MorphOpenGLWidget.toggle_rewind (src/modules/audio.py lines 564-571):
leaving rewind returns to Paused; entering rewind starts playing backwards. -/
def toggle_rewind (s : Transport) : Transport :=
  if s.rewind_mode then
    { s with rewind_mode := false, paused := true }
  else
    { s with rewind_mode := true, paused := false }

/-- Clock-advance portion of MorphOpenGLWidget.update_animation
(src/modules/audio.py lines 529-545).  The source's 16 ms QTimer supplies the
fixed per-tick interval written literally as 0.016 there; here the interval is
the parameter dt, so the source's behaviour is this function at dt = 0.016.
Rewind subtracts dt * 2.0 (independent of speed); forward playback adds
dt * speed; overshooting a bound clamps elapsed and forces paused. -/
def update_animation (dt : ℚ) (s : Transport) : Transport :=
  if s.paused then s
  else if s.rewind_mode then
    let e := s.elapsed - dt * 2
    if e < 0 then { s with elapsed := 0, rewind_mode := false, paused := true }
    else { s with elapsed := e }
  else
    let e := s.elapsed + dt * s.speed
    if e > s.duration then { s with elapsed := s.duration, paused := true }
    else { s with elapsed := e }

/-- MorphOpenGLWidget.set_position (src/modules/audio.py lines 554-557):
elapsed = max(0.0, min(position_seconds, duration)). -/
def set_position (position_seconds : ℚ) (s : Transport) : Transport :=
  { s with elapsed := max 0 (min position_seconds s.duration) }

/-- MorphOpenGLWidget.set_speed (src/modules/audio.py lines 573-575). -/
def set_speed (speed : ℚ) (s : Transport) : Transport :=
  { s with speed := speed }

/-- MorphOpenGLWidget.get_normalized_elapsed (src/modules/audio.py lines
550-552): min(1.0, max(0.0, elapsed / duration)). -/
def get_normalized_elapsed (s : Transport) : ℚ :=
  min 1 (max 0 (s.elapsed / s.duration))

end Morph

namespace AudioMod

/-- SmoothValue from src/modules/audio.py lines 17-30: a one-pole low-pass
filter holding current, target and a smoothing coefficient. -/
structure SmoothValue where
  current : ℚ
  target : ℚ
  smoothing : ℚ
  deriving DecidableEq, Repr

/-- SmoothValue.__init__ (src/modules/audio.py lines 18-21): current and
target both start at the initial value. -/
def SmoothValue.init (initial smoothing : ℚ) : SmoothValue :=
  { current := initial, target := initial, smoothing := smoothing }

/-- SmoothValue.update (src/modules/audio.py lines 23-24):
current += (target - current) * (1.0 - smoothing). -/
def SmoothValue.update (sv : SmoothValue) : SmoothValue :=
  { sv with current := sv.current + (sv.target - sv.current) * (1 - sv.smoothing) }

/-- SmoothValue.set_target (src/modules/audio.py lines 26-27). -/
def SmoothValue.set_target (sv : SmoothValue) (value : ℚ) : SmoothValue :=
  { sv with target := value }

/-- SmoothValue.get (src/modules/audio.py lines 29-30). -/
def SmoothValue.get (sv : SmoothValue) : ℚ :=
  sv.current

/-- RotationController state from src/modules/audio.py lines 33-45
(the wall-clock field last_time is external and not part of the embedded
state). -/
structure RotationController where
  rotation_x : SmoothValue
  rotation_y : SmoothValue
  momentum_x : ℚ
  momentum_y : ℚ
  velocity_x : SmoothValue
  velocity_y : SmoothValue
  auto_rotation : Bool
  transition : SmoothValue
  damping : ℚ
  momentum_multiplier : ℚ
  deriving DecidableEq, Repr

/-- RotationController.__init__ (src/modules/audio.py lines 34-45). -/
def initController : RotationController :=
  { rotation_x := SmoothValue.init 0 0.8
    rotation_y := SmoothValue.init 0 0.8
    momentum_x := 0
    momentum_y := 0
    velocity_x := SmoothValue.init 0 0.6
    velocity_y := SmoothValue.init 0 0.6
    auto_rotation := true
    transition := SmoothValue.init 1 0.95
    damping := 0.95
    momentum_multiplier := 0.2 }

/-- RotationController.update (src/modules/audio.py lines 47-69): advance all
smoothed values, feed momentum into the rotation targets with dynamic
damping, and snap momentum below 0.01 to exactly zero.  The delta_time
argument is accepted and ignored, exactly as in the source. -/
def update (delta_time : ℚ) (c : RotationController) : RotationController :=
  let c1 : RotationController :=
    { c with rotation_x := c.rotation_x.update
             rotation_y := c.rotation_y.update
             velocity_x := c.velocity_x.update
             velocity_y := c.velocity_y.update
             transition := c.transition.update }
  let c2 : RotationController :=
    if 0.01 < |c1.momentum_x| ∨ 0.01 < |c1.momentum_y| then
      let velocity := (|c1.momentum_x| + |c1.momentum_y|) * 0.5
      let dynamic_damping := c1.damping * (0.97 + 0.03 * (1 - min 1 (velocity / 3)))
      { c1 with rotation_x := c1.rotation_x.set_target (c1.rotation_x.get + c1.momentum_x)
                rotation_y := c1.rotation_y.set_target (c1.rotation_y.get + c1.momentum_y)
                momentum_x := c1.momentum_x * dynamic_damping
                momentum_y := c1.momentum_y * dynamic_damping }
    else c1
  let c3 : RotationController :=
    if |c2.momentum_x| < 0.01 then { c2 with momentum_x := 0 } else c2
  if |c3.momentum_y| < 0.01 then { c3 with momentum_y := 0 } else c3

/-- RotationController.start_orbit (src/modules/audio.py lines 71-73). -/
def start_orbit (c : RotationController) : RotationController :=
  { c with auto_rotation := false, transition := c.transition.set_target 0 }

/-- RotationController.stop_orbit (src/modules/audio.py lines 75-79):
momentum_x is fed from velocity_y and momentum_y from velocity_x (the screen
dx/dy axes map to the opposite rotation axes), the transition target is set
to 1 and auto_rotation is re-enabled immediately. -/
def stop_orbit (c : RotationController) : RotationController :=
  { c with momentum_x := c.velocity_y.get * c.momentum_multiplier
           momentum_y := c.velocity_x.get * c.momentum_multiplier
           transition := c.transition.set_target 1
           auto_rotation := true }

/-- RotationController.should_resume_auto_rotation (src/modules/audio.py
lines 81-84). -/
def should_resume_auto_rotation (c : RotationController) : Bool :=
  decide (|c.momentum_x| < 0.3 ∧ |c.momentum_y| < 0.3 ∧ 0.95 < c.transition.get)

/-- RotationController.resume_auto_rotation (src/modules/audio.py lines
86-88). -/
def resume_auto_rotation (c : RotationController) : RotationController :=
  { c with auto_rotation := true, transition := c.transition.set_target 1 }

/-- RotationController.update_mouse_velocity (src/modules/audio.py lines
90-93): guarded by delta_time > 0. -/
def update_mouse_velocity (dx dy delta_time : ℚ) (c : RotationController) : RotationController :=
  if 0 < delta_time then
    { c with velocity_x := c.velocity_x.set_target (dx / delta_time * 1.3)
             velocity_y := c.velocity_y.set_target (dy / delta_time * 1.3) }
  else c

end AudioMod

namespace RotateMod

/-- SmoothValue from src/rotate.py lines 22-35: the second copy of the
one-pole low-pass filter. -/
structure SmoothValue where
  current : ℚ
  target : ℚ
  smoothing : ℚ
  deriving DecidableEq, Repr

/-- SmoothValue.__init__ (src/rotate.py lines 23-26). -/
def SmoothValue.init (initial smoothing : ℚ) : SmoothValue :=
  { current := initial, target := initial, smoothing := smoothing }

/-- SmoothValue.update (src/rotate.py lines 28-29). -/
def SmoothValue.update (sv : SmoothValue) : SmoothValue :=
  { sv with current := sv.current + (sv.target - sv.current) * (1 - sv.smoothing) }

/-- SmoothValue.set_target (src/rotate.py lines 31-32). -/
def SmoothValue.set_target (sv : SmoothValue) (value : ℚ) : SmoothValue :=
  { sv with target := value }

/-- SmoothValue.get (src/rotate.py lines 34-35). -/
def SmoothValue.get (sv : SmoothValue) : ℚ :=
  sv.current

/-- RotationController state from src/rotate.py lines 37-49 (last_time is
external wall-clock state and is not embedded). -/
structure RotationController where
  rotation_x : SmoothValue
  rotation_y : SmoothValue
  momentum_x : ℚ
  momentum_y : ℚ
  velocity_x : SmoothValue
  velocity_y : SmoothValue
  auto_rotation : Bool
  transition : SmoothValue
  damping : ℚ
  momentum_multiplier : ℚ
  deriving DecidableEq, Repr

/-- RotationController.__init__ (src/rotate.py lines 38-49). -/
def initController : RotationController :=
  { rotation_x := SmoothValue.init 0 0.8
    rotation_y := SmoothValue.init 0 0.8
    momentum_x := 0
    momentum_y := 0
    velocity_x := SmoothValue.init 0 0.6
    velocity_y := SmoothValue.init 0 0.6
    auto_rotation := true
    transition := SmoothValue.init 1 0.95
    damping := 0.95
    momentum_multiplier := 0.2 }

/-- RotationController.update (src/rotate.py lines 51-73). -/
def update (delta_time : ℚ) (c : RotationController) : RotationController :=
  let c1 : RotationController :=
    { c with rotation_x := c.rotation_x.update
             rotation_y := c.rotation_y.update
             velocity_x := c.velocity_x.update
             velocity_y := c.velocity_y.update
             transition := c.transition.update }
  let c2 : RotationController :=
    if 0.01 < |c1.momentum_x| ∨ 0.01 < |c1.momentum_y| then
      let velocity := (|c1.momentum_x| + |c1.momentum_y|) * 0.5
      let dynamic_damping := c1.damping * (0.97 + 0.03 * (1 - min 1 (velocity / 3)))
      { c1 with rotation_x := c1.rotation_x.set_target (c1.rotation_x.get + c1.momentum_x)
                rotation_y := c1.rotation_y.set_target (c1.rotation_y.get + c1.momentum_y)
                momentum_x := c1.momentum_x * dynamic_damping
                momentum_y := c1.momentum_y * dynamic_damping }
    else c1
  let c3 : RotationController :=
    if |c2.momentum_x| < 0.01 then { c2 with momentum_x := 0 } else c2
  if |c3.momentum_y| < 0.01 then { c3 with momentum_y := 0 } else c3

/-- RotationController.start_orbit (src/rotate.py lines 75-77). -/
def start_orbit (c : RotationController) : RotationController :=
  { c with auto_rotation := false, transition := c.transition.set_target 0 }

/-- RotationController.stop_orbit (src/rotate.py lines 79-88). -/
def stop_orbit (c : RotationController) : RotationController :=
  { c with momentum_x := c.velocity_y.get * c.momentum_multiplier
           momentum_y := c.velocity_x.get * c.momentum_multiplier
           transition := c.transition.set_target 1
           auto_rotation := true }

/-- RotationController.should_resume_auto_rotation (src/rotate.py lines
90-93). -/
def should_resume_auto_rotation (c : RotationController) : Bool :=
  decide (|c.momentum_x| < 0.3 ∧ |c.momentum_y| < 0.3 ∧ 0.95 < c.transition.get)

/-- RotationController.resume_auto_rotation (src/rotate.py lines 95-97). -/
def resume_auto_rotation (c : RotationController) : RotationController :=
  { c with auto_rotation := true, transition := c.transition.set_target 1 }

/-- RotationController.update_mouse_velocity (src/rotate.py lines 99-103). -/
def update_mouse_velocity (dx dy delta_time : ℚ) (c : RotationController) : RotationController :=
  if 0 < delta_time then
    { c with velocity_x := c.velocity_x.set_target (dx / delta_time * 1.3)
             velocity_y := c.velocity_y.set_target (dy / delta_time * 1.3) }
  else c

end RotateMod

/-- Mutating calls on a RotationController, shared vocabulary for comparing
the two copies of the class. -/
inductive RCOp where
  | tick (delta_time : ℚ)
  | orbitStart
  | orbitStop
  | resumeAuto
  | mouseVelocity (dx dy delta_time : ℚ)
  deriving DecidableEq, Repr

/-- Interpretation of an RCOp by the src/modules/audio.py copy. -/
def AudioMod.execOp (op : RCOp) (c : AudioMod.RotationController) : AudioMod.RotationController :=
  match op with
  | RCOp.tick dt => AudioMod.update dt c
  | RCOp.orbitStart => AudioMod.start_orbit c
  | RCOp.orbitStop => AudioMod.stop_orbit c
  | RCOp.resumeAuto => AudioMod.resume_auto_rotation c
  | RCOp.mouseVelocity dx dy dt => AudioMod.update_mouse_velocity dx dy dt c

/-- Interpretation of an RCOp by the src/rotate.py copy. -/
def RotateMod.execOp (op : RCOp) (c : RotateMod.RotationController) : RotateMod.RotationController :=
  match op with
  | RCOp.tick dt => RotateMod.update dt c
  | RCOp.orbitStart => RotateMod.start_orbit c
  | RCOp.orbitStop => RotateMod.stop_orbit c
  | RCOp.resumeAuto => RotateMod.resume_auto_rotation c
  | RCOp.mouseVelocity dx dy dt => RotateMod.update_mouse_velocity dx dy dt c

/-- Run a call sequence on the src/modules/audio.py copy. -/
def AudioMod.runOps (ops : List RCOp) (c : AudioMod.RotationController) : AudioMod.RotationController :=
  ops.foldl (fun s op => AudioMod.execOp op s) c

/-- Run a call sequence on the src/rotate.py copy. -/
def RotateMod.runOps (ops : List RCOp) (c : RotateMod.RotationController) : RotateMod.RotationController :=
  ops.foldl (fun s op => RotateMod.execOp op s) c

/-- Field-for-field identification of the two SmoothValue copies. -/
def svToAudio (sv : RotateMod.SmoothValue) : AudioMod.SmoothValue :=
  { current := sv.current, target := sv.target, smoothing := sv.smoothing }

/-- Field-for-field identification of the two RotationController copies. -/
def rcToAudio (c : RotateMod.RotationController) : AudioMod.RotationController :=
  { rotation_x := svToAudio c.rotation_x
    rotation_y := svToAudio c.rotation_y
    momentum_x := c.momentum_x
    momentum_y := c.momentum_y
    velocity_x := svToAudio c.velocity_x
    velocity_y := svToAudio c.velocity_y
    auto_rotation := c.auto_rotation
    transition := svToAudio c.transition
    damping := c.damping
    momentum_multiplier := c.momentum_multiplier }

namespace Player

/-- Loaded audio: audio_data (the decoded mono sample buffer) together with
sample_rate.  In the source (EnhancedAudioPlayer.load_file,
src/modules/audio.py lines 106-114) the two fields are always assigned
together, so they are modelled as one optional record. -/
structure AudioData where
  samples : List ℚ
  sample_rate : ℚ
  deriving DecidableEq, Repr

/-- EnhancedAudioPlayer state (src/modules/audio.py lines 96-104). -/
structure EnhancedAudioPlayer where
  audio : Option AudioData
  playing : Bool
  paused : Bool
  current_position : ℚ
  speed : ℚ
  is_rewinding : Bool
  deriving DecidableEq, Repr

/-- EnhancedAudioPlayer.__init__ (src/modules/audio.py lines 97-104):
no audio loaded, not playing, not paused, position 0, speed 1. -/
def initPlayer : EnhancedAudioPlayer :=
  { audio := none, playing := false, paused := false,
    current_position := 0, speed := 1, is_rewinding := false }

/-- Python's int() conversion of a rational: truncation toward zero. -/
def pyInt (x : ℚ) : ℤ :=
  if 0 ≤ x then ⌊x⌋ else ⌈x⌉

/-- EnhancedAudioPlayer.play (src/modules/audio.py lines 116-127): returns
immediately when no audio data is loaded; otherwise optionally seeks to
from_pos, computes the start sample, and when it is inside the buffer starts
the device stream (an external effect) and records playing = True,
paused = False. -/
def play (from_pos : Option ℚ) (p : EnhancedAudioPlayer) : EnhancedAudioPlayer :=
  match p.audio with
  | none => p
  | some audio =>
    let p1 := match from_pos with
      | some fp => { p with current_position := fp }
      | none => p
    let start_sample := pyInt (p1.current_position * audio.sample_rate)
    if start_sample < (audio.samples.length : ℤ) then
      { p1 with playing := true, paused := false }
    else p1

/-- EnhancedAudioPlayer.resume (src/modules/audio.py lines 141-143). -/
def resume (p : EnhancedAudioPlayer) : EnhancedAudioPlayer :=
  if p.paused then play (some p.current_position) p else p

/-- EnhancedAudioPlayer.set_position (src/modules/audio.py lines 145-150):
only acts when audio is loaded; clamps to the track length and restarts
playback when currently playing and not paused. -/
def set_position (position_seconds : ℚ) (p : EnhancedAudioPlayer) : EnhancedAudioPlayer :=
  match p.audio with
  | none => p
  | some audio =>
    let clamped := max 0 (min position_seconds ((audio.samples.length : ℚ) / audio.sample_rate))
    let p1 := { p with current_position := clamped }
    if p1.playing ∧ ¬ p1.paused then play (some p1.current_position) p1 else p1

end Player

namespace Geo

/-- Vertex: a 3D point with exact rational coordinates. -/
abbrev Vec3 := ℚ × ℚ × ℚ

/-- Componentwise linear-interpolation formula shared by the interpolate
helper inside the cube builders and by the morph lerp:
start + (end - start) * t. -/
def lerp1 (s e t : ℚ) : ℚ :=
  s + (e - s) * t

/-- The interpolate helper of the geometry builders
(src/rotate.py lines 497-500, src/modules/audio.py lines 350-354):
componentwise linear interpolation of two points. -/
def interpolate (v1 v2 : Vec3) (t : ℚ) : Vec3 :=
  (lerp1 v1.1 v2.1 t, lerp1 v1.2.1 v2.2.1 t, lerp1 v1.2.2 v2.2.2 t)

/-- The morph interpolator lerp (src/rotate.py lines 568-571) and
MorphOpenGLWidget._lerp (src/modules/audio.py lines 356-358): per-vertex
start + (end - start) * t with no clamping of t. -/
def lerp (start finish : Vec3) (t : ℚ) : Vec3 :=
  (lerp1 start.1 finish.1 t, lerp1 start.2.1 finish.2.1 t, lerp1 start.2.2 finish.2.2 t)

/-- Element-wise morph over co-indexed vertex lists, as performed by
MorphOpenGLWidget._draw_morphed_shape (numpy broadcasting of _lerp over the
whole vertex array) and by the loop in draw_morphed_shape of src/rotate.py. -/
def lerpAll (cube_vertices sphere_vertices : List Vec3) (t : ℚ) : List Vec3 :=
  List.zipWith (fun c s => lerp c s t) cube_vertices sphere_vertices

/-- Modelled from the spec (section 4.2): the Morph Interpolator contract
computes, element-wise, cube + (sphere - cube) * clamp(t, 0, 1).  This
definition follows the spec's words and exists only to be compared with the
source's lerp. -/
def clampMorphSpec (cube_vertices sphere_vertices : List Vec3) (t : ℚ) : List Vec3 :=
  List.zipWith (fun c s => lerp c s (max 0 (min t 1))) cube_vertices sphere_vertices

/-- Python's round-half-to-even of a rational to an integer. -/
def pyRound (x : ℚ) : ℤ :=
  if x - ⌊x⌋ < 1/2 then ⌊x⌋
  else if 1/2 < x - ⌊x⌋ then ⌊x⌋ + 1
  else if ⌊x⌋ % 2 = 0 then ⌊x⌋ else ⌊x⌋ + 1

/-- round(x, 6): the 6-decimal rounding used for the vertex-cache key in
MorphOpenGLWidget._create_tessellated_cube (src/modules/audio.py line 307). -/
def round6 (x : ℚ) : ℚ :=
  (pyRound (x * 1000000) : ℚ) / 1000000

/-- The rounded coordinate tuple keying the vertex cache. -/
def roundKey (v : Vec3) : Vec3 :=
  (round6 v.1, round6 v.2.1, round6 v.2.2)

/-- Mutable state of the cube builder: the vertices list and the
vertex_cache dict (modelled as an association list from rounded keys to
indices). -/
structure BuildSt where
  vertices : List Vec3
  cache : List (Vec3 × ℕ)
  deriving DecidableEq, Repr

/-- Lookup in the vertex_cache dict. -/
def cacheLookup : List (Vec3 × ℕ) → Vec3 → Option ℕ
  | [], _ => none
  | (k, i) :: rest, key => if k = key then some i else cacheLookup rest key

/-- Vertex insertion with deduplication (src/modules/audio.py lines 306-313):
if the rounded key is cached return the cached index, otherwise append the
point and cache its new index. -/
def addVertex (st : BuildSt) (point : Vec3) : BuildSt × ℕ :=
  match cacheLookup st.cache (roundKey point) with
  | some idx => (st, idx)
  | none =>
    (⟨st.vertices ++ [point], (roundKey point, st.vertices.length) :: st.cache⟩,
      st.vertices.length)

/-- Inner j-loop of the cube builder (src/modules/audio.py lines 296-315):
for each j compute t2 = j / subdivisions, interpolate along the two opposite
face edges, interpolate between them with t1, and record the deduplicated
vertex index in the current row. -/
def buildRow (c0 c1 c2 c3 : Vec3) (subdivisions : ℕ) (t1 : ℚ) :
    BuildSt → List ℕ → BuildSt × List ℕ
  | st, [] => (st, [])
  | st, j :: js =>
    let t2 : ℚ := (j : ℚ) / (subdivisions : ℚ)
    let edge1 := interpolate c0 c1 t2
    let edge2 := interpolate c3 c2 t2
    let point := interpolate edge1 edge2 t1
    let r1 := addVertex st point
    let r2 := buildRow c0 c1 c2 c3 subdivisions t1 r1.1 js
    (r2.1, r1.2 :: r2.2)

/-- Outer i-loop of the cube builder (src/modules/audio.py lines 292-317):
for each i compute t1 = i / subdivisions and build one grid row. -/
def buildGrid (c0 c1 c2 c3 : Vec3) (subdivisions : ℕ) :
    BuildSt → List ℕ → BuildSt × List (List ℕ)
  | st, [] => (st, [])
  | st, i :: is =>
    let t1 : ℚ := (i : ℚ) / (subdivisions : ℚ)
    let r1 := buildRow c0 c1 c2 c3 subdivisions t1 st (List.range (subdivisions + 1))
    let r2 := buildGrid c0 c1 c2 c3 subdivisions r1.1 is
    (r2.1, r1.2 :: r2.2)

/-- grid_indices[i][j] access. -/
def rowGet (grid : List (List ℕ)) (i j : ℕ) : ℕ :=
  (grid.getD i []).getD j 0

/-- Edge emission for one face (src/modules/audio.py lines 319-327): a
horizontal edge for every i in range(subdivisions+1), j in
range(subdivisions), plus a vertical edge when i < subdivisions. -/
def faceEdges (grid : List (List ℕ)) (subdivisions : ℕ) : List (ℕ × ℕ) :=
  List.flatMap (List.range (subdivisions + 1)) fun i =>
    List.flatMap (List.range subdivisions) fun j =>
      (rowGet grid i j, rowGet grid i (j + 1)) ::
        (if i < subdivisions then [(rowGet grid i j, rowGet grid (i + 1) j)] else [])

/-- The eight corner vertices of the basic cube (src/modules/audio.py lines
264-273, identical to cube_vertices in src/rotate.py lines 465-475). -/
def basic_vertices (size : ℚ) : List Vec3 :=
  [(-size, -size, -size), (size, -size, -size), (size, size, -size), (-size, size, -size),
    (-size, -size, size), (size, -size, size), (size, size, size), (-size, size, size)]

/-- The six quad faces as corner-index tuples (src/modules/audio.py lines
275-282, identical to cube_quads in src/rotate.py lines 477-485). -/
def basic_quads : List (ℕ × ℕ × ℕ × ℕ) :=
  [(0, 3, 2, 1), (4, 5, 6, 7), (0, 1, 5, 4), (3, 7, 6, 2), (0, 4, 7, 3), (1, 2, 6, 5)]

/-- basic_vertices[i] lookup for a quad corner index. -/
def cornerOf (size : ℚ) (i : ℕ) : Vec3 :=
  (basic_vertices size).getD i (0, 0, 0)

/-- Per-face body of the builder loop (src/modules/audio.py lines 288-327):
build the face's grid of deduplicated vertex indices, then append the face's
edges. -/
def processFace (size : ℚ) (subdivisions : ℕ) (acc : BuildSt × List (ℕ × ℕ))
    (quad : ℕ × ℕ × ℕ × ℕ) : BuildSt × List (ℕ × ℕ) :=
  let c0 := cornerOf size quad.1
  let c1 := cornerOf size quad.2.1
  let c2 := cornerOf size quad.2.2.1
  let c3 := cornerOf size quad.2.2.2
  let r := buildGrid c0 c1 c2 c3 subdivisions acc.1 (List.range (subdivisions + 1))
  (r.1, acc.2 ++ faceEdges r.2 subdivisions)

/-- MorphOpenGLWidget._create_tessellated_cube (src/modules/audio.py lines
258-329) / create_tessellated_cube (src/rotate.py lines 488-548).  The
source performs no validation of subdivisions: when subdivisions = 0 the
very first loop iteration evaluates t1 = i / subdivisions and Python raises
ZeroDivisionError inside the grid-construction loop; that failure is
modelled as none.  Otherwise the six faces are processed in order and the
accumulated vertices and edges are returned. -/
def createTessellatedCube (size : ℚ) (subdivisions : ℕ) :
    Option (List Vec3 × List (ℕ × ℕ)) :=
  if subdivisions = 0 then none
  else
    let r := basic_quads.foldl (processFace size subdivisions) (⟨[], []⟩, [])
    some (r.1.vertices, r.2)

/-- One sphere vertex (generate_sphere_vertices body, src/rotate.py lines
553-564 and src/modules/audio.py lines 335-346): normalize the cube vertex
to the sphere radius, mapping near-origin points to the origin to avoid a
division by zero. -/
noncomputable def sphereVertex (radius : ℝ) (v : Vec3) : ℝ × ℝ × ℝ :=
  let distance := Real.sqrt ((v.1 : ℝ) ^ 2 + (v.2.1 : ℝ) ^ 2 + (v.2.2 : ℝ) ^ 2)
  if distance < 0.0001 then (0, 0, 0)
  else ((v.1 : ℝ) / distance * radius, (v.2.1 : ℝ) / distance * radius,
    (v.2.2 : ℝ) / distance * radius)

/-- generate_sphere_vertices (src/rotate.py lines 551-565,
MorphOpenGLWidget._generate_sphere_vertices in src/modules/audio.py lines
331-348): one sphere vertex per cube vertex. -/
noncomputable def generate_sphere_vertices (cube_vertices : List Vec3) (radius : ℝ) :
    List (ℝ × ℝ × ℝ) :=
  cube_vertices.map (sphereVertex radius)

/-- Invariant of the vertex cache: every cached index points inside the
vertices list. -/
def CacheOk (st : BuildSt) : Prop :=
  ∀ kv ∈ st.cache, kv.2 < st.vertices.length

end Geo

open Morph in
/-- C1: from the initial Paused state with elapsed = 0, toggle_play_pause
followed by ten ticks at dt = 1, speed = 1 gives elapsed = 10 still in the
PlayingForward state (not paused, not rewinding); after thirty ticks elapsed
is exactly 30 and the state is still playing; the thirty-first tick, whose
unclamped result 31 would exceed duration = 30, clamps elapsed to exactly 30
and forces paused = true. -/
theorem c1_transport_forward_playback :
    (((update_animation 1)^[10] (toggle_play_pause initTransport)).elapsed = 10
      ∧ ((update_animation 1)^[10] (toggle_play_pause initTransport)).paused = false
      ∧ ((update_animation 1)^[10] (toggle_play_pause initTransport)).rewind_mode = false)
    ∧ (((update_animation 1)^[30] (toggle_play_pause initTransport)).elapsed = 30
      ∧ ((update_animation 1)^[30] (toggle_play_pause initTransport)).paused = false)
    ∧ (((update_animation 1)^[31] (toggle_play_pause initTransport)).elapsed = 30
      ∧ ((update_animation 1)^[31] (toggle_play_pause initTransport)).paused = true) := by
  norm_num [Function.iterate_succ_apply, update_animation, toggle_play_pause, initTransport]

open Morph in
/-- C2 counterexample: starting toggle_rewind from elapsed = 10 and ticking
five times with dt = 1 leaves elapsed = 0 but the state is still Rewinding
(paused = false, rewind_mode = true): the code pauses only when elapsed would
go strictly below 0, so no automatic transition to Paused happens at the
moment elapsed reaches 0, contrary to the claim. -/
theorem c2_rewind_no_pause_at_zero :
    ((update_animation 1)^[5] (toggle_rewind { initTransport with elapsed := 10 })).elapsed = 0
    ∧ ((update_animation 1)^[5]
        (toggle_rewind { initTransport with elapsed := 10 })).paused ≠ true
    ∧ ((update_animation 1)^[5]
        (toggle_rewind { initTransport with elapsed := 10 })).rewind_mode = true := by
  norm_num [Function.iterate_succ_apply, update_animation, toggle_rewind, initTransport]

open Morph in
/-- C2 amended: the rewind decrement is dt * 2, independent of the speed
multiplier; starting toggle_rewind from elapsed = 10 and ticking five times
with dt = 1 yields elapsed = 0 still in the Rewinding state; the automatic
transition to Paused (elapsed clamped at 0, paused forced true, rewind_mode
forced false) happens on the next tick, the first whose unclamped result
would be strictly below 0. -/
theorem c2_rewind_amended :
    (∀ (s : Transport) (dt v : ℚ), s.paused = false → s.rewind_mode = true →
      (update_animation dt { s with speed := v }).elapsed = (update_animation dt s).elapsed)
    ∧ (∀ (s : Transport) (dt : ℚ), s.paused = false → s.rewind_mode = true →
        0 ≤ s.elapsed - dt * 2 →
        (update_animation dt s).elapsed = s.elapsed - dt * 2)
    ∧ (((update_animation 1)^[5] (toggle_rewind { initTransport with elapsed := 10 })).elapsed = 0
      ∧ ((update_animation 1)^[5]
          (toggle_rewind { initTransport with elapsed := 10 })).rewind_mode = true)
    ∧ (((update_animation 1)^[6] (toggle_rewind { initTransport with elapsed := 10 })).elapsed = 0
      ∧ ((update_animation 1)^[6]
          (toggle_rewind { initTransport with elapsed := 10 })).paused = true
      ∧ ((update_animation 1)^[6]
          (toggle_rewind { initTransport with elapsed := 10 })).rewind_mode = false) := by
  refine ⟨?_, ?_,
    by norm_num [Function.iterate_succ_apply, update_animation, toggle_rewind, initTransport],
    by norm_num [Function.iterate_succ_apply, update_animation, toggle_rewind, initTransport]⟩
  · intro s dt v hp hr
    by_cases h : s.elapsed - dt * 2 < 0 <;>
      simp [update_animation, hp, hr, h]
  · intro s dt hp hr hge
    have hlt : ¬ (s.elapsed - dt * 2 < 0) := by linarith
    simp [update_animation, hp, hr, hlt]

open Morph in
/-- C2 amended witness: the speed-independence and exact-decrement parts of
the amended claim, instantiated at the concrete Rewinding state with
elapsed = 10, dt = 1 and an alternative speed of 5. -/
theorem c2_rewind_amended_witness :
    ((update_animation 1
        { { initTransport with elapsed := 10, paused := false, rewind_mode := true }
            with speed := 5 }).elapsed
      = (update_animation 1
          { initTransport with elapsed := 10, paused := false, rewind_mode := true }).elapsed)
    ∧ (update_animation 1
        { initTransport with elapsed := 10, paused := false, rewind_mode := true }).elapsed
      = (10 : ℚ) - 1 * 2 :=
  ⟨c2_rewind_amended.1 { initTransport with elapsed := 10, paused := false, rewind_mode := true }
      1 5 rfl rfl,
    c2_rewind_amended.2.1 { initTransport with elapsed := 10, paused := false, rewind_mode := true }
      1 rfl rfl (by norm_num)⟩

open Morph in
/-- C8: set_position stores elapsed = clamp(position, 0, duration) in every
transport state; in particular, when duration is nonnegative, seeking to
duration + 100 yields elapsed = duration and seeking to -5 yields elapsed = 0. -/
theorem c8_seek_clamps :
    (∀ (s : Transport) (pos : ℚ),
      (set_position pos s).elapsed = max 0 (min pos s.duration)
        ∧ (set_position pos s).paused = s.paused
        ∧ (set_position pos s).rewind_mode = s.rewind_mode
        ∧ (set_position pos s).duration = s.duration
        ∧ (set_position pos s).speed = s.speed)
    ∧ (∀ s : Transport, 0 ≤ s.duration →
        (set_position (s.duration + 100) s).elapsed = s.duration
          ∧ (set_position (-5) s).elapsed = 0) := by
  constructor
  · intro s pos
    exact ⟨rfl, rfl, rfl, rfl, rfl⟩
  · intro s hd
    constructor
    · have h1 : min (s.duration + 100) s.duration = s.duration := by
        apply min_eq_right; linarith
      simp [set_position, h1, max_eq_right hd]
    · have h1 : min (-5 : ℚ) s.duration = -5 := by
        apply min_eq_left; linarith
      simp [set_position, h1]

open Morph in
/-- C8 witness: the clamping facts instantiated at the initial transport
state, whose duration 30 is nonnegative: seeking to 130 yields 30 and
seeking to -5 yields 0. -/
theorem c8_seek_clamps_witness :
    (set_position (initTransport.duration + 100) initTransport).elapsed = initTransport.duration
      ∧ (set_position (-5) initTransport).elapsed = 0 :=
  c8_seek_clamps.2 initTransport (by norm_num [initTransport])

/-- Auxiliary: one SmoothValue.update step leaves target and smoothing
unchanged and multiplies the gap to the target by the smoothing factor, so
after n steps the gap is the initial gap times smoothing ^ n. -/
theorem audio_smooth_gap (n : ℕ) : ∀ sv : AudioMod.SmoothValue,
    (AudioMod.SmoothValue.update^[n] sv).current - sv.target
      = (sv.current - sv.target) * sv.smoothing ^ n := by
  induction n with
  | zero => intro sv; simp
  | succ n ih =>
    intro sv
    rw [Function.iterate_succ_apply]
    have h := ih sv.update
    have ht : (sv.update).target = sv.target := rfl
    have hs : (sv.update).smoothing = sv.smoothing := rfl
    have hc : (sv.update).current
        = sv.current + (sv.target - sv.current) * (1 - sv.smoothing) := rfl
    rw [ht, hs, hc] at h
    linear_combination h

/-- C5: for a SmoothValue whose smoothing coefficient is in (0,1) and whose
target is held constant, each update moves current toward the target by the
fraction (1 - smoothing) of the remaining gap, the iterates get within any
positive epsilon of the target after enough ticks, and the current value
never overshoots past the target from either side. -/
theorem c5_smoothed_scalar_convergence (sv : AudioMod.SmoothValue)
    (h1 : 0 < sv.smoothing) (h2 : sv.smoothing < 1) :
    (sv.update.current - sv.current = (sv.target - sv.current) * (1 - sv.smoothing))
    ∧ (∀ ε : ℚ, 0 < ε → ∃ n : ℕ,
        |(AudioMod.SmoothValue.update^[n] sv).current - sv.target| < ε)
    ∧ (sv.current ≤ sv.target →
        ∀ n : ℕ, (AudioMod.SmoothValue.update^[n] sv).current ≤ sv.target)
    ∧ (sv.target ≤ sv.current →
        ∀ n : ℕ, sv.target ≤ (AudioMod.SmoothValue.update^[n] sv).current) := by
  refine ⟨by simp [AudioMod.SmoothValue.update], ?_, ?_, ?_⟩
  · intro ε hε
    have hgpos : (0 : ℚ) < |sv.current - sv.target| + 1 := by positivity
    obtain ⟨n, hn⟩ := exists_pow_lt_of_lt_one (div_pos hε hgpos) h2
    refine ⟨n, ?_⟩
    rw [audio_smooth_gap n sv, abs_mul, abs_pow, abs_of_pos h1]
    have hsn : (0 : ℚ) < sv.smoothing ^ n := pow_pos h1 n
    calc |sv.current - sv.target| * sv.smoothing ^ n
        ≤ (|sv.current - sv.target| + 1) * sv.smoothing ^ n := by nlinarith
      _ < (|sv.current - sv.target| + 1) * (ε / (|sv.current - sv.target| + 1)) := by
          exact mul_lt_mul_of_pos_left hn hgpos
      _ = ε := by field_simp
  · intro hc n
    have h := audio_smooth_gap n sv
    have hsn : (0 : ℚ) ≤ sv.smoothing ^ n := le_of_lt (pow_pos h1 n)
    nlinarith
  · intro hc n
    have h := audio_smooth_gap n sv
    have hsn : (0 : ℚ) ≤ sv.smoothing ^ n := le_of_lt (pow_pos h1 n)
    nlinarith

/-- C5 witness: the one-step gap-fraction property instantiated at a
SmoothValue with current 0, target 0 and smoothing 0.8, whose smoothing lies
in (0,1). -/
theorem c5_smoothed_scalar_convergence_witness :
    (AudioMod.SmoothValue.init 0 0.8).update.current
        - (AudioMod.SmoothValue.init 0 0.8).current
      = ((AudioMod.SmoothValue.init 0 0.8).target - (AudioMod.SmoothValue.init 0 0.8).current)
        * (1 - (AudioMod.SmoothValue.init 0 0.8).smoothing) :=
  (c5_smoothed_scalar_convergence (AudioMod.SmoothValue.init 0 0.8)
    (by norm_num [AudioMod.SmoothValue.init])
    (by norm_num [AudioMod.SmoothValue.init])).1

/-- C7 counterexample: from the freshly constructed controller with
velocity_x.current set to 1 and velocity_y.current still 0, stop_orbit does
not satisfy the per-axis formula momentum_x = velocity_x * 0.2 and
momentum_y = velocity_y * 0.2: the code feeds momentum_x from velocity_y and
momentum_y from velocity_x, so momentum_x is 0 where the per-axis formula
demands 0.2. -/
theorem c7_stop_orbit_per_axis_cex :
    ¬ ((AudioMod.stop_orbit
          { AudioMod.initController with
              velocity_x := { AudioMod.initController.velocity_x with current := 1 } }).momentum_x
        = ({ AudioMod.initController with
              velocity_x := { AudioMod.initController.velocity_x with current := 1 } }
            : AudioMod.RotationController).velocity_x.current * 0.2
      ∧ (AudioMod.stop_orbit
          { AudioMod.initController with
              velocity_x := { AudioMod.initController.velocity_x with current := 1 } }).momentum_y
        = ({ AudioMod.initController with
              velocity_x := { AudioMod.initController.velocity_x with current := 1 } }
            : AudioMod.RotationController).velocity_y.current * 0.2) := by
  intro h
  norm_num [AudioMod.stop_orbit, AudioMod.initController, AudioMod.SmoothValue.init,
    AudioMod.SmoothValue.get, AudioMod.SmoothValue.set_target] at h

/-- C7 amended: for every controller state, stop_orbit converts the last
observed drag velocities into momentum with the axes swapped (momentum_x is
velocity_y.current times the momentum multiplier and momentum_y is
velocity_x.current times it, mapping screen dx/dy onto the opposite rotation
axes), sets the transition target to 1 keeping its current value, and sets
auto_rotation to true in the same call; the multiplier is 0.2 in the
constructed controller. -/
theorem c7_stop_orbit_amended (c : AudioMod.RotationController) :
    (AudioMod.stop_orbit c).momentum_x = c.velocity_y.current * c.momentum_multiplier
    ∧ (AudioMod.stop_orbit c).momentum_y = c.velocity_x.current * c.momentum_multiplier
    ∧ (AudioMod.stop_orbit c).transition.target = 1
    ∧ (AudioMod.stop_orbit c).transition.current = c.transition.current
    ∧ (AudioMod.stop_orbit c).auto_rotation = true
    ∧ AudioMod.initController.momentum_multiplier = 0.2 :=
  ⟨rfl, rfl, rfl, rfl, rfl, rfl⟩

/-- Auxiliary: the two copies of the RotationController class interpret every
single mutating call identically, through the field-for-field identification
of their states. -/
theorem rc_execOp_comm (op : RCOp) (c : RotateMod.RotationController) :
    rcToAudio (RotateMod.execOp op c) = AudioMod.execOp op (rcToAudio c) := by
  obtain ⟨⟨rxc, rxt, rxs⟩, ⟨ryc, ryt, rys⟩, mx, my, ⟨vxc, vxt, vxs⟩, ⟨vyc, vyt, vys⟩,
    ar, ⟨tc, tt, ts⟩, d, mm⟩ := c
  cases op <;>
    simp only [RotateMod.execOp, AudioMod.execOp, RotateMod.update, AudioMod.update,
      RotateMod.start_orbit, AudioMod.start_orbit, RotateMod.stop_orbit, AudioMod.stop_orbit,
      RotateMod.resume_auto_rotation, AudioMod.resume_auto_rotation,
      RotateMod.update_mouse_velocity, AudioMod.update_mouse_velocity,
      RotateMod.SmoothValue.update, AudioMod.SmoothValue.update,
      RotateMod.SmoothValue.set_target, AudioMod.SmoothValue.set_target,
      RotateMod.SmoothValue.get, AudioMod.SmoothValue.get, rcToAudio, svToAudio,
      apply_ite (f := rcToAudio)] <;>
    split_ifs <;> rfl

/-- C10: the two RotationController implementations (src/rotate.py lines
37-103 and src/modules/audio.py lines 33-93) are behaviorally equivalent:
the field identification of their states carries the initial state to the
initial state, commutes with every sequence of update / start_orbit /
stop_orbit / resume_auto_rotation / update_mouse_velocity calls, and both
copies return the same should_resume_auto_rotation value in corresponding
states. -/
theorem c10_rotation_controllers_equivalent :
    (∀ (c : RotateMod.RotationController) (ops : List RCOp),
      rcToAudio (RotateMod.runOps ops c) = AudioMod.runOps ops (rcToAudio c))
    ∧ (∀ c : RotateMod.RotationController,
        RotateMod.should_resume_auto_rotation c
          = AudioMod.should_resume_auto_rotation (rcToAudio c))
    ∧ rcToAudio RotateMod.initController = AudioMod.initController := by
  refine ⟨?_, fun c => rfl, rfl⟩
  intro c ops
  induction ops generalizing c with
  | nil => rfl
  | cons op ops ih =>
    show rcToAudio (RotateMod.runOps ops (RotateMod.execOp op c))
        = AudioMod.runOps ops (AudioMod.execOp op (rcToAudio c))
    rw [ih, rc_execOp_comm]

/-- C9: calling play on the audio player when no audio data has been loaded
is a complete no-op: the whole player state, including playing, paused,
current_position and speed, is returned unchanged, also when a from_pos
argument is supplied. -/
theorem c9_play_without_audio_noop (p : Player.EnhancedAudioPlayer)
    (from_pos : Option ℚ) (h : p.audio = none) :
    Player.play from_pos p = p := by
  simp [Player.play, h]

/-- C9 witness: play with an explicit from_pos on the freshly constructed
player, which has no audio loaded, returns the state unchanged. -/
theorem c9_play_without_audio_noop_witness :
    Player.play (some 5) Player.initPlayer = Player.initPlayer :=
  c9_play_without_audio_noop Player.initPlayer (some 5) rfl

/-- C3, the code evaluated at the failing input: building with
subdivisions = 0 hits the modelled ZeroDivisionError (none).  The source has
no validation of the subdivision count; the failure is the grid loop's own
division t1 = i / subdivisions, so the rejection before the division that
the claim describes does not exist in the code. -/
theorem c3_subdivisions_zero_divides :
    Geo.createTessellatedCube 1 0 = none := by
  rfl

/-- Auxiliary: the morph lerp at t = 0 returns the start vertex exactly. -/
theorem geo_lerp_zero (v w : Geo.Vec3) : Geo.lerp v w 0 = v := by
  obtain ⟨a, b, c⟩ := v
  obtain ⟨d, e, f⟩ := w
  simp only [Geo.lerp, Geo.lerp1, Prod.mk.injEq]
  refine ⟨by ring, by ring, by ring⟩

/-- Auxiliary: the morph lerp at t = 1 returns the end vertex exactly. -/
theorem geo_lerp_one (v w : Geo.Vec3) : Geo.lerp v w 1 = w := by
  obtain ⟨a, b, c⟩ := v
  obtain ⟨d, e, f⟩ := w
  simp only [Geo.lerp, Geo.lerp1, Prod.mk.injEq]
  refine ⟨by ring, by ring, by ring⟩

/-- C4 counterexample: the source's interpolator does not clamp t.  At
t = 2 with cube vertex (0,0,0) and sphere vertex (1,0,0) it extrapolates to
(2,0,0), while the claimed formula cube + (sphere - cube) * clamp(t, 0, 1)
gives (1,0,0). -/
theorem c4_lerp_unclamped_cex :
    Geo.lerpAll [((0 : ℚ), (0 : ℚ), (0 : ℚ))] [((1 : ℚ), (0 : ℚ), (0 : ℚ))] 2
      ≠ Geo.clampMorphSpec [((0 : ℚ), (0 : ℚ), (0 : ℚ))] [((1 : ℚ), (0 : ℚ), (0 : ℚ))] 2 := by
  norm_num [Geo.lerpAll, Geo.clampMorphSpec, Geo.lerp, Geo.lerp1]

/-- C4 amended: the interpolator computes cube + (sphere - cube) * t with no
clamping of t (the caller clamps upstream via get_normalized_elapsed), so it
agrees with the spec's clamped formula exactly on t in [0,1]; for co-indexed
vertex lists the boundaries are exact, interpolate(C,S,0) = C and
interpolate(C,S,1) = S; and each component is monotonic in t between the two
endpoints. -/
theorem c4_lerp_amended :
    (∀ (C S : List Geo.Vec3) (t : ℚ), 0 ≤ t → t ≤ 1 →
      Geo.lerpAll C S t = Geo.clampMorphSpec C S t)
    ∧ (∀ C S : List Geo.Vec3, C.length = S.length →
        Geo.lerpAll C S 0 = C ∧ Geo.lerpAll C S 1 = S)
    ∧ (∀ (a b t1 t2 : ℚ), 0 ≤ t1 → t1 ≤ t2 → t2 ≤ 1 →
        (a ≤ b → Geo.lerp1 a b t1 ≤ Geo.lerp1 a b t2)
        ∧ (b ≤ a → Geo.lerp1 a b t2 ≤ Geo.lerp1 a b t1)) := by
  refine ⟨?_, ?_, ?_⟩
  · intro C S t h0 h1
    have hc : max 0 (min t 1) = t := by rw [min_eq_left h1, max_eq_right h0]
    simp [Geo.lerpAll, Geo.clampMorphSpec, hc]
  · intro C S
    induction C generalizing S with
    | nil =>
      intro h
      cases S with
      | nil => exact ⟨rfl, rfl⟩
      | cons s ss => simp at h
    | cons c cs ih =>
      intro h
      cases S with
      | nil => simp at h
      | cons s ss =>
        have h' : cs.length = ss.length := by simpa using h
        obtain ⟨ih0, ih1⟩ := ih ss h'
        constructor
        · show Geo.lerp c s 0 :: Geo.lerpAll cs ss 0 = c :: cs
          rw [geo_lerp_zero, ih0]
        · show Geo.lerp c s 1 :: Geo.lerpAll cs ss 1 = s :: ss
          rw [geo_lerp_one, ih1]
  · intro a b t1 t2 h0 h12 h1
    constructor
    · intro hab
      simp only [Geo.lerp1]
      nlinarith
    · intro hba
      simp only [Geo.lerp1]
      nlinarith

/-- C4 amended witness: boundary exactness instantiated at the concrete
co-indexed singleton lists C = [(1,2,3)] and S = [(4,5,6)]. -/
theorem c4_lerp_amended_witness :
    Geo.lerpAll [((1 : ℚ), (2 : ℚ), (3 : ℚ))] [((4 : ℚ), (5 : ℚ), (6 : ℚ))] 0
        = [((1 : ℚ), (2 : ℚ), (3 : ℚ))]
      ∧ Geo.lerpAll [((1 : ℚ), (2 : ℚ), (3 : ℚ))] [((4 : ℚ), (5 : ℚ), (6 : ℚ))] 1
        = [((4 : ℚ), (5 : ℚ), (6 : ℚ))] :=
  c4_lerp_amended.2.1 _ _ rfl

/-- Auxiliary: a successful cache lookup returns a value stored in the
cache. -/
theorem cacheLookup_mem {cache : List (Geo.Vec3 × ℕ)} {key : Geo.Vec3} {i : ℕ}
    (h : Geo.cacheLookup cache key = some i) : ∃ k, (k, i) ∈ cache := by
  induction cache with
  | nil => simp [Geo.cacheLookup] at h
  | cons kv rest ih =>
    obtain ⟨k, v⟩ := kv
    by_cases hk : k = key
    · refine ⟨k, ?_⟩
      simp [Geo.cacheLookup, hk] at h
      simp [h]
    · obtain ⟨k', hk'⟩ := ih (by simpa [Geo.cacheLookup, hk] using h)
      exact ⟨k', List.mem_cons_of_mem _ hk'⟩

/-- Auxiliary: under the cache invariant, indices returned by cache lookups
are inside the vertices list. -/
theorem cacheLookup_lt {st : Geo.BuildSt} {key : Geo.Vec3} {i : ℕ}
    (hok : Geo.CacheOk st) (h : Geo.cacheLookup st.cache key = some i) :
    i < st.vertices.length := by
  obtain ⟨k, hk⟩ := cacheLookup_mem h
  exact hok (k, i) hk

/-- Auxiliary: addVertex never shrinks the vertices list. -/
theorem addVertex_len_le (st : Geo.BuildSt) (p : Geo.Vec3) :
    st.vertices.length ≤ (Geo.addVertex st p).1.vertices.length := by
  unfold Geo.addVertex
  cases h : Geo.cacheLookup st.cache (Geo.roundKey p) <;> simp

/-- Auxiliary: addVertex preserves the cache invariant. -/
theorem addVertex_cacheOk {st : Geo.BuildSt} (hok : Geo.CacheOk st) (p : Geo.Vec3) :
    Geo.CacheOk (Geo.addVertex st p).1 := by
  unfold Geo.addVertex
  cases h : Geo.cacheLookup st.cache (Geo.roundKey p) with
  | some idx => simpa using hok
  | none =>
    intro kv hkv
    simp only [List.mem_cons] at hkv
    rcases hkv with h1 | h2
    · simp [h1, List.length_append]
    · have := hok kv h2
      simp only [List.length_append, List.length_cons, List.length_nil]
      omega

/-- Auxiliary: under the cache invariant, the index returned by addVertex is
inside the resulting vertices list. -/
theorem addVertex_idx_lt {st : Geo.BuildSt} (hok : Geo.CacheOk st) (p : Geo.Vec3) :
    (Geo.addVertex st p).2 < (Geo.addVertex st p).1.vertices.length := by
  unfold Geo.addVertex
  cases h : Geo.cacheLookup st.cache (Geo.roundKey p) with
  | some idx => simpa using cacheLookup_lt hok h
  | none => simp [List.length_append]

/-- Auxiliary: the inner row loop preserves the cache invariant, never
shrinks the vertices list, fills the row with indices inside the final
vertices list, and produces one index per loop iteration. -/
theorem buildRow_spec (c0 c1 c2 c3 : Geo.Vec3) (n : ℕ) (t1 : ℚ) :
    ∀ (js : List ℕ) (st : Geo.BuildSt), Geo.CacheOk st →
      Geo.CacheOk (Geo.buildRow c0 c1 c2 c3 n t1 st js).1
      ∧ st.vertices.length ≤ (Geo.buildRow c0 c1 c2 c3 n t1 st js).1.vertices.length
      ∧ (∀ x ∈ (Geo.buildRow c0 c1 c2 c3 n t1 st js).2,
          x < (Geo.buildRow c0 c1 c2 c3 n t1 st js).1.vertices.length)
      ∧ (Geo.buildRow c0 c1 c2 c3 n t1 st js).2.length = js.length := by
  intro js
  induction js with
  | nil =>
    intro st hok
    exact ⟨hok, le_refl _, by simp [Geo.buildRow], rfl⟩
  | cons j js ih =>
    intro st hok
    set t2 : ℚ := (j : ℚ) / (n : ℚ) with ht2
    set pt := Geo.interpolate (Geo.interpolate c0 c1 t2) (Geo.interpolate c3 c2 t2) t1 with hpt
    obtain ⟨hok2, hlen2, hmem2, hcount2⟩ := ih (Geo.addVertex st pt).1 (addVertex_cacheOk hok pt)
    refine ⟨hok2, ?_, ?_, ?_⟩
    · exact le_trans (addVertex_len_le st pt) hlen2
    · intro x hx
      rcases List.mem_cons.mp hx with h | h
      · exact h ▸ lt_of_lt_of_le (addVertex_idx_lt hok pt) hlen2
      · exact hmem2 x h
    · show ((Geo.addVertex st pt).2
          :: (Geo.buildRow c0 c1 c2 c3 n t1 (Geo.addVertex st pt).1 js).2).length
            = js.length + 1
      simp [hcount2]

/-- Auxiliary: the outer grid loop preserves the cache invariant, never
shrinks the vertices list, fills the grid with indices inside the final
vertices list, produces one row per loop iteration, and every row has
exactly n + 1 entries. -/
theorem buildGrid_spec (c0 c1 c2 c3 : Geo.Vec3) (n : ℕ) :
    ∀ (is : List ℕ) (st : Geo.BuildSt), Geo.CacheOk st →
      Geo.CacheOk (Geo.buildGrid c0 c1 c2 c3 n st is).1
      ∧ st.vertices.length ≤ (Geo.buildGrid c0 c1 c2 c3 n st is).1.vertices.length
      ∧ (∀ row ∈ (Geo.buildGrid c0 c1 c2 c3 n st is).2,
          ∀ x ∈ row, x < (Geo.buildGrid c0 c1 c2 c3 n st is).1.vertices.length)
      ∧ (Geo.buildGrid c0 c1 c2 c3 n st is).2.length = is.length
      ∧ (∀ row ∈ (Geo.buildGrid c0 c1 c2 c3 n st is).2, row.length = n + 1) := by
  intro is
  induction is with
  | nil =>
    intro st hok
    exact ⟨hok, le_refl _, by simp [Geo.buildGrid], rfl, by simp [Geo.buildGrid]⟩
  | cons i is ih =>
    intro st hok
    set t1 : ℚ := (i : ℚ) / (n : ℚ) with ht1
    obtain ⟨hrok, hrlen, hrmem, hrcount⟩ :=
      buildRow_spec c0 c1 c2 c3 n t1 (List.range (n + 1)) st hok
    obtain ⟨hgok, hglen, hgmem, hgcount, hgrow⟩ :=
      ih (Geo.buildRow c0 c1 c2 c3 n t1 st (List.range (n + 1))).1 hrok
    refine ⟨hgok, le_trans hrlen hglen, ?_, ?_, ?_⟩
    · intro row hrow x hx
      rcases List.mem_cons.mp hrow with h | h
      · exact lt_of_lt_of_le (hrmem x (h ▸ hx)) hglen
      · exact hgmem row h x hx
    · show ((Geo.buildRow c0 c1 c2 c3 n t1 st (List.range (n + 1))).2
          :: (Geo.buildGrid c0 c1 c2 c3 n
              (Geo.buildRow c0 c1 c2 c3 n t1 st (List.range (n + 1))).1 is).2).length
            = is.length + 1
      simp [hgcount]
    · intro row hrow
      rcases List.mem_cons.mp hrow with h | h
      · rw [h, hrcount, List.length_range]
      · exact hgrow row h

/-- Auxiliary: grid_indices[i][j] access stays inside the bound whenever the
grid has n + 1 rows of n + 1 entries all below the bound. -/
theorem rowGet_lt (grid : List (List ℕ)) (n L i j : ℕ)
    (hg : grid.length = n + 1) (hr : ∀ row ∈ grid, row.length = n + 1)
    (hm : ∀ row ∈ grid, ∀ x ∈ row, x < L)
    (hi : i < n + 1) (hj : j < n + 1) :
    Geo.rowGet grid i j < L := by
  have hi' : i < grid.length := by omega
  have hrow : grid.getD i [] ∈ grid := by
    rw [List.getD_eq_getElem grid [] hi']
    exact List.getElem_mem hi'
  have hlen : (grid.getD i []).length = n + 1 := hr _ hrow
  have hj' : j < (grid.getD i []).length := by omega
  have hx : (grid.getD i []).getD j 0 ∈ grid.getD i [] := by
    rw [List.getD_eq_getElem _ 0 hj']
    exact List.getElem_mem hj'
  exact hm _ hrow _ hx

/-- Auxiliary: every edge emitted for one face references indices below the
bound, given that the face's grid has n + 1 rows of n + 1 entries all below
the bound. -/
theorem faceEdges_bound (grid : List (List ℕ)) (n L : ℕ)
    (hg : grid.length = n + 1) (hr : ∀ row ∈ grid, row.length = n + 1)
    (hm : ∀ row ∈ grid, ∀ x ∈ row, x < L) :
    ∀ e ∈ Geo.faceEdges grid n, e.1 < L ∧ e.2 < L := by
  intro e he
  rcases List.mem_flatMap.mp he with ⟨i, hi, hei⟩
  rcases List.mem_flatMap.mp hei with ⟨j, hj, hej⟩
  have hi' : i < n + 1 := List.mem_range.mp hi
  have hj' : j < n := List.mem_range.mp hj
  rcases List.mem_cons.mp hej with h | h
  · subst h
    exact ⟨rowGet_lt grid n L i j hg hr hm hi' (by omega),
      rowGet_lt grid n L i (j + 1) hg hr hm hi' (by omega)⟩
  · by_cases hin : i < n
    · simp only [hin, if_true, List.mem_singleton] at h
      subst h
      exact ⟨rowGet_lt grid n L i j hg hr hm hi' (by omega),
        rowGet_lt grid n L (i + 1) j hg hr hm (by omega) (by omega)⟩
    · simp [hin] at h

/-- Auxiliary: processing one face preserves the cache invariant, never
shrinks the vertices list, and keeps every accumulated edge (old and new)
inside the resulting vertices list. -/
theorem processFace_spec (size : ℚ) (n : ℕ) (acc : Geo.BuildSt × List (ℕ × ℕ))
    (quad : ℕ × ℕ × ℕ × ℕ) (hok : Geo.CacheOk acc.1)
    (hedges : ∀ e ∈ acc.2, e.1 < acc.1.vertices.length ∧ e.2 < acc.1.vertices.length) :
    Geo.CacheOk (Geo.processFace size n acc quad).1
    ∧ acc.1.vertices.length ≤ (Geo.processFace size n acc quad).1.vertices.length
    ∧ ∀ e ∈ (Geo.processFace size n acc quad).2,
        e.1 < (Geo.processFace size n acc quad).1.vertices.length
        ∧ e.2 < (Geo.processFace size n acc quad).1.vertices.length := by
  obtain ⟨hgok, hglen, hgmem, hgcount, hgrow⟩ :=
    buildGrid_spec (Geo.cornerOf size quad.1) (Geo.cornerOf size quad.2.1)
      (Geo.cornerOf size quad.2.2.1) (Geo.cornerOf size quad.2.2.2) n
      (List.range (n + 1)) acc.1 hok
  refine ⟨hgok, hglen, ?_⟩
  intro e he
  rcases List.mem_append.mp he with h | h
  · obtain ⟨h1, h2⟩ := hedges e h
    exact ⟨lt_of_lt_of_le h1 hglen, lt_of_lt_of_le h2 hglen⟩
  · exact faceEdges_bound _ n _ (by rw [hgcount, List.length_range]) hgrow hgmem e h

/-- Auxiliary: folding the per-face body over any quad list preserves the
cache invariant and the edge bound. -/
theorem foldFaces_spec (size : ℚ) (n : ℕ) :
    ∀ (quads : List (ℕ × ℕ × ℕ × ℕ)) (acc : Geo.BuildSt × List (ℕ × ℕ)),
      Geo.CacheOk acc.1 →
      (∀ e ∈ acc.2, e.1 < acc.1.vertices.length ∧ e.2 < acc.1.vertices.length) →
      Geo.CacheOk (quads.foldl (Geo.processFace size n) acc).1
      ∧ ∀ e ∈ (quads.foldl (Geo.processFace size n) acc).2,
          e.1 < (quads.foldl (Geo.processFace size n) acc).1.vertices.length
          ∧ e.2 < (quads.foldl (Geo.processFace size n) acc).1.vertices.length := by
  intro quads
  induction quads with
  | nil => intro acc hok hedges; exact ⟨hok, hedges⟩
  | cons quad quads ih =>
    intro acc hok hedges
    obtain ⟨h1, _, h3⟩ := processFace_spec size n acc quad hok hedges
    exact ih (Geo.processFace size n acc quad) h1 h3

/-- C6: for every subdivisions at least 1 and positive size, the geometry
builder succeeds and returns a cube vertex list whose sphere projection has
the same length, and every index appearing in any emitted edge pair is
strictly below that length. -/
theorem c6_geometry_builder_indices (size : ℚ) (subdivisions : ℕ)
    (h1 : 1 ≤ subdivisions) (h2 : 0 < size) :
    ∃ verts edges, Geo.createTessellatedCube size subdivisions = some (verts, edges)
      ∧ (Geo.generate_sphere_vertices verts 1).length = verts.length
      ∧ ∀ e ∈ edges, e.1 < verts.length ∧ e.2 < verts.length := by
  have hne : subdivisions ≠ 0 := by omega
  refine ⟨(Geo.basic_quads.foldl (Geo.processFace size subdivisions) (⟨[], []⟩, [])).1.vertices,
    (Geo.basic_quads.foldl (Geo.processFace size subdivisions) (⟨[], []⟩, [])).2, ?_, ?_, ?_⟩
  · simp [Geo.createTessellatedCube, hne]
  · simp [Geo.generate_sphere_vertices]
  · exact (foldFaces_spec size subdivisions Geo.basic_quads (⟨[], []⟩, [])
      (by intro kv hkv; simp at hkv) (by intro e he; simp at he)).2

/-- C6 witness: at the concrete input size 1, subdivisions 1, the builder
returns a result (its hypotheses 1 at least 1 and 0 below 1 hold there). -/
theorem c6_geometry_builder_indices_witness :
    (Geo.createTessellatedCube 1 1).isSome = true := by
  obtain ⟨v, e, heq, -, -⟩ := c6_geometry_builder_indices 1 1 (by norm_num) (by norm_num)
  rw [heq]
  rfl
